import Mathlib

/-!
Shallow embedding of the pywps input/output core
(src/pywps/inout/basic.py and src/pywps/inout/formats.py),
with theorems checking the repository's specification claims against it.

Python values handled by the code are modelled by the inductive `PyObj`;
Python `None` is modelled by `Option.none` at the use sites.  Exceptions
are modelled by `Except PyErr`.  The filesystem visible to `IOHandler`
is modelled by `FS`, an association list of file paths to text contents
together with a counter supplying fresh temp-file names (directory
creation by `set_workdir` is a side effect on directories only and is
not tracked, since no file content depends on it).
-/

/-- Exceptions raised by the modelled code.
`notImplemented` models the bare `Exception` raised by
`IOHandler.get_memory_object` (the spec's NotImplemented error);
`invalidParameterValue` carries the requested format's mime type,
encoding and schema exactly as the Python message interpolates them;
`valueConversion` models the `ValueError` raised by `int()` / `float()`
on unparsable text (the spec's ValueConversion error);
`attributeError` models calling a missing method (e.g. `.lower()` or
`.read()` on an object without it); `typeError` models type errors such
as `file.write` applied to a non-text object; `ioError` models a failed
`open` of a missing file. -/
inductive PyErr where
  | notImplemented : PyErr
  | invalidParameterValue : String → String → String → PyErr
  | valueConversion : PyErr
  | attributeError : PyErr
  | typeError : PyErr
  | ioError : PyErr
deriving DecidableEq, Repr

/-- Python objects passed through the handlers: text, integers, booleans,
floats (modelled exactly as rationals: finite decimal literals parse
exactly, IEEE rounding and inf/nan are outside the model), readable
streams carrying their remaining unread text, and file-backed streams
(`FileIO`) carrying their path. -/
inductive PyObj where
  | str : String → PyObj
  | int : Int → PyObj
  | bool : Bool → PyObj
  | rat : Rat → PyObj
  | stream : String → PyObj
  | fileStream : String → PyObj
deriving DecidableEq, Repr

/-- Python `str()` / `text_type` conversion, modelled from the spec
(`pywps._compat.text_type` is not under src/): identity on text, decimal
rendering of numbers, `True`/`False` for booleans.  The rendering of
stream objects is a placeholder; no claim exercises it. -/
def textType : PyObj → String
  | PyObj.str s => s
  | PyObj.int n => toString n
  | PyObj.bool b => if b then "True" else "False"
  | PyObj.rat q => toString q
  | PyObj.stream _ => "<stream>"
  | PyObj.fileStream p => "<file " ++ p ++ ">"

/-- `text_type` applied to a possibly-`None` Python value. -/
def textTypeOpt : Option PyObj → String
  | none => "None"
  | some v => textType v

/- ## Format (src/pywps/inout/formats.py) -/

/-- `Format` from src/pywps/inout/formats.py.  Fields `_encoding` and
`_schema` back the normalizing `encoding` / `schema` properties;
`mime_type` has a pass-through property and is kept plain.  The
`validate` callable is modelled opaquely by an optional numeric tag so
that distinct validator capabilities stay distinguishable;
`extension` is carried but never read by `same_as`. -/
structure Format where
  mime_type : String
  _schema : Option String
  _encoding : Option String
  validate : Option Nat
  extension : Option String
deriving DecidableEq, Repr

/-- The `encoding` property: `self._encoding` if truthy else `''`
(both `None` and the empty string are falsy in Python). -/
def Format.encoding (f : Format) : String :=
  match f._encoding with
  | some e => if e = "" then "" else e
  | none => ""

/-- The `schema` property: `self._schema` if truthy else `''`. -/
def Format.schema (f : Format) : String :=
  match f._schema with
  | some s => if s = "" then "" else s
  | none => ""

/-- `Format.same_as(self, frmt)`: compares the `mime_type`, `encoding`
and `schema` properties of `frmt` with those of `self`. -/
def Format.same_as (self frmt : Format) : Bool :=
  frmt.mime_type == self.mime_type &&
  frmt.encoding == self.encoding &&
  frmt.schema == self.schema

/-- The `Format.__init__` constructor: positional order
`(mime_type, schema, encoding, validate, extension)`. -/
def Format.init (mime_type : String) (schema : Option String)
    (encoding : Option String) (validate : Option Nat)
    (extension : Option String) : Format :=
  { mime_type := mime_type, _schema := schema, _encoding := encoding,
    validate := validate, extension := extension }

/- ## BasicComplex (src/pywps/inout/basic.py, lines 291-327) -/

/-- `BasicComplex` state: the private `_data_format` backing the
`data_format` property, and `supported_formats` (`None` when the
constructor argument was `None`). -/
structure BasicComplex where
  _data_format : Option Format
  supported_formats : Option (List Format)
deriving DecidableEq, Repr

/-- `BasicComplex._is_supported`: iterates `self.supported_formats`
testing `frmt.same_as(data_format)`; iterating `None` raises a
TypeError. -/
def BasicComplex.is_supported (bc : BasicComplex) (data_format : Format) :
    Except PyErr Bool :=
  match bc.supported_formats with
  | none => Except.error PyErr.typeError
  | some l => Except.ok (l.any (fun frmt => frmt.same_as data_format))

/-- The `data_format` property setter: stores the requested instance if
supported, otherwise raises InvalidParameterValue carrying the requested
`mime_type`, `encoding` and `schema`. -/
def BasicComplex.set_data_format (bc : BasicComplex) (data_format : Format) :
    Except PyErr BasicComplex :=
  match bc.is_supported data_format with
  | Except.error e => Except.error e
  | Except.ok true => Except.ok { bc with _data_format := some data_format }
  | Except.ok false =>
      Except.error (PyErr.invalidParameterValue data_format.mime_type
        data_format.encoding data_format.schema)

/-- `BasicComplex.__init__(data_format, supported_formats)`:
`_data_format` starts `None`; if `supported_formats` is truthy
(non-`None` and non-empty) the property setter is invoked with its first
entry; if `data_format` is truthy the setter is invoked with it. -/
def BasicComplex.init (data_format : Option Format)
    (supported_formats : Option (List Format)) : Except PyErr BasicComplex :=
  let bc0 : BasicComplex :=
    { _data_format := none, supported_formats := supported_formats }
  let step1 : Except PyErr BasicComplex :=
    match supported_formats with
    | some (f :: _) => bc0.set_data_format f
    | _ => Except.ok bc0
  match step1 with
  | Except.error e => Except.error e
  | Except.ok bc1 =>
      match data_format with
      | some df => bc1.set_data_format df
      | none => Except.ok bc1

/- ## Helper lemmas on Format.same_as -/

lemma Format.same_as_refl (f : Format) : f.same_as f = true := by
  simp [Format.same_as]

lemma Format.same_as_comm (a b : Format) : a.same_as b = b.same_as a := by
  rw [Bool.eq_iff_iff]
  simp only [Format.same_as, Bool.and_eq_true, beq_iff_eq]
  constructor
  · rintro ⟨⟨h1, h2⟩, h3⟩
    exact ⟨⟨h1.symm, h2.symm⟩, h3.symm⟩
  · rintro ⟨⟨h1, h2⟩, h3⟩
    exact ⟨⟨h1.symm, h2.symm⟩, h3.symm⟩

/- ## IOHandler (src/pywps/inout/basic.py, lines 11-183) -/

/-- The `SOURCE_TYPE` constants (MEMORY = 0, FILE = 1, STREAM = 2,
DATA = 3); the code only ever compares them for equality. -/
inductive SOURCE_TYPE where
  | MEMORY : SOURCE_TYPE
  | FILE : SOURCE_TYPE
  | STREAM : SOURCE_TYPE
  | DATA : SOURCE_TYPE
deriving DecidableEq, Repr

/-- The filesystem visible to the handlers: an association list mapping
file paths to text contents, plus a counter from which `mkstemp` draws
fresh temp-file names. -/
structure FS where
  files : List (String × String)
  nextTemp : Nat
deriving DecidableEq, Repr

/-- Contents of the file at `p`, or `none` when no such file exists. -/
def FS.read (files : List (String × String)) (p : String) : Option String :=
  match files with
  | [] => none
  | (q, c) :: rest => if q = p then some c else FS.read rest p

/-- `open(p, 'w'); write(c); close()`: replace the contents of the first
entry for `p`, or create the file when absent. -/
def FS.write (files : List (String × String)) (p c : String) :
    List (String × String) :=
  match files with
  | [] => [(p, c)]
  | (q, d) :: rest =>
      if q = p then (p, c) :: rest else (q, d) :: FS.write rest p c

/-- The path `tempfile.mkstemp(dir=d)` allocates for counter value `n`. -/
def tempPath (dir : Option String) (n : Nat) : String :=
  (match dir with
   | some d => d
   | none => "/tmp") ++ "/tmp" ++ toString n

/-- `tempfile.mkstemp(dir=dir)`: atomically creates a new empty file
under a fresh name and returns its path. -/
def mkstemp (dir : Option String) (fs : FS) : String × FS :=
  let p := tempPath dir fs.nextTemp
  (p, { files := (p, "") :: fs.files, nextTemp := fs.nextTemp + 1 })

/-- `os.path.abspath`, modelled with a fixed current working directory
`/cwd`; no claim depends on the specific resolution. -/
def os_path_abspath (p : String) : String :=
  if p.startsWith "/" then p else "/cwd/" ++ p

/-- `IOHandler` state as set up by `__init__`: `source_type = None`,
`source = None`, `_tempfile = None`, plus the working directory. -/
structure IOHandler where
  source_type : Option SOURCE_TYPE
  source : Option PyObj
  tempfile : Option String
  workdir : Option String
deriving DecidableEq, Repr

/-- `IOHandler(workdir)`: fresh handler with no source and no cached
temp file (directory creation by the workdir setter mutates directories
only and is not tracked by `FS`). -/
def IOHandler.init (workdir : Option String) : IOHandler :=
  { source_type := none, source := none, tempfile := none,
    workdir := workdir }

/-- `set_file(filename)`: source becomes the absolute path, kind FILE. -/
def IOHandler.set_file (h : IOHandler) (filename : String) : IOHandler :=
  { h with source_type := some SOURCE_TYPE.FILE,
           source := some (PyObj.str (os_path_abspath filename)) }

/-- `set_stream(stream)`: source becomes the stream object, kind
STREAM. -/
def IOHandler.set_stream (h : IOHandler) (stream : PyObj) : IOHandler :=
  { h with source_type := some SOURCE_TYPE.STREAM, source := some stream }

/-- `set_data(data)`: source becomes the plain value, kind DATA. -/
def IOHandler.set_data (h : IOHandler) (data : PyObj) : IOHandler :=
  { h with source_type := some SOURCE_TYPE.DATA, source := some data }

/-- `set_memory_object(memory_object)`: sets `source_type` to MEMORY and
nothing else — the argument is discarded and `source` keeps its prior
value. -/
def IOHandler.set_memory_object (h : IOHandler) (memory_object : PyObj) :
    IOHandler :=
  let _ := memory_object
  { h with source_type := some SOURCE_TYPE.MEMORY }

/-- `get_memory_object()`: unconditionally raises (the NotImplemented
error of the spec). -/
def IOHandler.get_memory_object (h : IOHandler) :
    Except PyErr (Option PyObj) :=
  let _ := h
  Except.error PyErr.notImplemented

/-- The STREAM/DATA arm of `get_file` past the cache check: `mkstemp`
creates an empty temp file, `open(…, 'w')` re-opens it, the stream's
remaining text (consuming the stream) or the raw stored value is
written, the path is cached in `_tempfile` and returned.  `write`
demands text, so a non-text DATA source raises a TypeError after the
empty temp file has already been created; `.read()` on a non-stream
object raises an AttributeError. -/
def IOHandler.materialize_file (h : IOHandler) (fs : FS) :
    Except PyErr (Option PyObj × IOHandler) × FS :=
  let pfs := mkstemp h.workdir fs
  let p := pfs.1
  let fs1 := pfs.2
  match h.source_type, h.source with
  | some SOURCE_TYPE.STREAM, some (PyObj.stream c) =>
      (Except.ok (some (PyObj.str p),
         { h with source := some (PyObj.stream ""), tempfile := some p }),
       { files := FS.write fs1.files p c, nextTemp := fs1.nextTemp })
  | some SOURCE_TYPE.STREAM, _ =>
      (Except.error PyErr.attributeError, fs1)
  | _, some (PyObj.str s) =>
      (Except.ok (some (PyObj.str p), { h with tempfile := some p }),
       { files := FS.write fs1.files p s, nextTemp := fs1.nextTemp })
  | _, _ =>
      (Except.error PyErr.typeError, fs1)

/-- `get_file()`: FILE → return the stored source unchanged; STREAM or
DATA → return the cached `_tempfile` if truthy, else materialize; any
other kind (unset or MEMORY) falls off the end and returns `None`. -/
def IOHandler.get_file (h : IOHandler) (fs : FS) :
    Except PyErr (Option PyObj × IOHandler) × FS :=
  if h.source_type = some SOURCE_TYPE.FILE then
    (Except.ok (h.source, h), fs)
  else if h.source_type = some SOURCE_TYPE.STREAM ∨
          h.source_type = some SOURCE_TYPE.DATA then
    match h.tempfile with
    | some t =>
        if t = "" then h.materialize_file fs
        else (Except.ok (some (PyObj.str t), h), fs)
    | none => h.materialize_file fs
  else
    (Except.ok (none, h), fs)

/-- `get_stream()`: FILE → a fresh `FileIO` on the stored path (the
source must be a path string); STREAM → the stored object unchanged;
DATA → a fresh `StringIO` wrapping `text_type(source)`; otherwise
`None`. -/
def IOHandler.get_stream (h : IOHandler) : Except PyErr (Option PyObj) :=
  match h.source_type with
  | some SOURCE_TYPE.FILE =>
      match h.source with
      | some (PyObj.str p) => Except.ok (some (PyObj.fileStream p))
      | _ => Except.error PyErr.typeError
  | some SOURCE_TYPE.STREAM => Except.ok h.source
  | some SOURCE_TYPE.DATA =>
      Except.ok (some (PyObj.stream (textTypeOpt h.source)))
  | _ => Except.ok none

/-- `get_data()`: FILE → open and read the whole file (a missing file
raises); STREAM → `source.read()`, consuming the stored stream; DATA →
the stored value as-is; otherwise `None`. -/
def IOHandler.get_data (h : IOHandler) (fs : FS) :
    Except PyErr (Option PyObj × IOHandler) :=
  match h.source_type with
  | some SOURCE_TYPE.FILE =>
      match h.source with
      | some (PyObj.str p) =>
          match FS.read fs.files p with
          | some c => Except.ok (some (PyObj.str c), h)
          | none => Except.error PyErr.ioError
      | _ => Except.error PyErr.typeError
  | some SOURCE_TYPE.STREAM =>
      match h.source with
      | some (PyObj.stream c) =>
          Except.ok (some (PyObj.str c),
            { h with source := some (PyObj.stream "") })
      | _ => Except.error PyErr.attributeError
  | some SOURCE_TYPE.DATA => Except.ok (h.source, h)
  | _ => Except.ok (none, h)

/- ## Python literal conversions used by SimpleHandler.set_data -/

/-- Python `str.strip()` of surrounding whitespace, on the character
list (agrees with `String.trim`, but reduces definitionally). -/
def pyStrip (s : String) : String :=
  String.mk
    (((s.data.dropWhile Char.isWhitespace).reverse.dropWhile
        Char.isWhitespace).reverse)

/-- Accumulate decimal digits; any non-digit character aborts.  An empty
digit list is rejected. -/
def parseDigits (cs : List Char) : Option Nat :=
  match cs with
  | [] => none
  | _ =>
      cs.foldl
        (fun acc c =>
          match acc with
          | none => none
          | some n => if c.isDigit then some (10 * n + (c.toNat - 48)) else none)
        (some 0)

/-- Python `int(text)`: optional surrounding whitespace, optional sign,
then base-10 digits; anything else is a ValueError. -/
def parseInt (s : String) : Option Int :=
  match (pyStrip s).data with
  | '+' :: rest => (parseDigits rest).map (fun n => (n : Int))
  | '-' :: rest => (parseDigits rest).map (fun n => -(n : Int))
  | rest => (parseDigits rest).map (fun n => (n : Int))

/-- Digits read as a number together with how many there were
(for the fractional part). -/
def parseDigitsLen (cs : List Char) : Option (Nat × Nat) :=
  (parseDigits cs).map (fun n => (n, cs.length))

/-- Split `cs` at the first character satisfying `sep` (the separator is
dropped); `none` as second component when no separator occurs. -/
def splitFirst (sep : Char → Bool) (cs : List Char) :
    List Char × Option (List Char) :=
  match cs with
  | [] => ([], none)
  | c :: rest =>
      if sep c then ([], some rest)
      else
        let r := splitFirst sep rest
        (c :: r.1, r.2)

/-- Optional leading sign: `true` means negative. -/
def takeSign (cs : List Char) : Bool × List Char :=
  match cs with
  | '+' :: rest => (false, rest)
  | '-' :: rest => (true, rest)
  | _ => (false, cs)

/-- The unsigned mantissa `intpart[.fracpart]` as an exact rational;
at least one digit must be present overall. -/
def parseMantissa (cs : List Char) : Option Rat :=
  let p := splitFirst (fun c => c = '.') cs
  match p.2 with
  | none => (parseDigits p.1).map (fun n => (n : Rat))
  | some fracs =>
      match p.1, fracs with
      | [], [] => none
      | _, _ =>
          let ip : Option Nat := if p.1 = [] then some 0 else parseDigits p.1
          let fp : Option (Nat × Nat) :=
            if fracs = [] then some (0, 0) else parseDigitsLen fracs
          match ip, fp with
          | some i, some fl =>
              some ((i : Rat) + (fl.1 : Rat) / ((10 : Rat) ^ fl.2))
          | _, _ => none

/-- Python `float(text)` restricted to finite decimal literals:
optional surrounding whitespace and sign, a decimal mantissa, and an
optional exponent part.  `inf` / `nan` are outside the model (they fall
outside every claim); rounding to binary is not modelled, the exact
decimal value is kept. -/
def parseFloat (s : String) : Option Rat :=
  let sg := takeSign (pyStrip s).data
  let me := splitFirst (fun c => c = 'e' ∨ c = 'E') sg.2
  let mant := parseMantissa me.1
  let expo : Option Int :=
    match me.2 with
    | none => some 0
    | some ecs =>
        match ecs with
        | [] => none
        | _ =>
            let esg := takeSign ecs
            (parseDigits esg.2).map
              (fun n => if esg.1 then -(n : Int) else (n : Int))
  match mant, expo with
  | some m, some e =>
      some ((if sg.1 then -m else m) * (10 : Rat) ^ e)
  | _, _ => none

/-- Python `int(obj)`: parses text, truncates floats toward zero, maps
booleans to 0/1, passes integers through; other objects raise. -/
def pyIntOf : PyObj → Except PyErr Int
  | PyObj.str s =>
      match parseInt s with
      | some n => Except.ok n
      | none => Except.error PyErr.valueConversion
  | PyObj.int n => Except.ok n
  | PyObj.bool b => Except.ok (if b then 1 else 0)
  | PyObj.rat q => Except.ok (if q < 0 then -((-q).floor) else q.floor)
  | _ => Except.error PyErr.typeError

/-- Python `float(obj)`: parses text, passes numbers through, maps
booleans to 0/1; other objects raise. -/
def pyFloatOf : PyObj → Except PyErr Rat
  | PyObj.str s =>
      match parseFloat s with
      | some q => Except.ok q
      | none => Except.error PyErr.valueConversion
  | PyObj.int n => Except.ok (n : Rat)
  | PyObj.bool b => Except.ok (if b then 1 else 0)
  | PyObj.rat q => Except.ok q
  | _ => Except.error PyErr.typeError

/-- Python `str.lower()` on its character list (ASCII-exact; agrees
with `String.toLower`, but reduces definitionally). -/
def pyStrLower (s : String) : String := String.mk (s.data.map Char.toLower)

/-- Python `obj.lower()`: only text objects have the method. -/
def pyLower : PyObj → Except PyErr String
  | PyObj.str s => Except.ok (pyStrLower s)
  | _ => Except.error PyErr.attributeError

/- ## SimpleHandler (src/pywps/inout/basic.py, lines 186-246) -/

/-- Modelled from the spec: `LITERAL_DATA_TYPES` is imported from
`pywps.inout.literaltypes`, a module not under src/; the spec fixes the
declared types as exactly string, integer, float and boolean. -/
def LITERAL_DATA_TYPES : List String :=
  ["string", "integer", "float", "boolean"]

/-- `SimpleHandler` state: the inherited `IOHandler` fields plus the
declared `data_type` (the `_validator` capability is stored and never
read by the handler itself, so it is not tracked). -/
structure SimpleHandler extends IOHandler where
  data_type : Option String
deriving DecidableEq, Repr

/-- `SimpleHandler(workdir, data_type)`. -/
def SimpleHandler.init (workdir : Option String)
    (data_type : Option String) : SimpleHandler :=
  { toIOHandler := IOHandler.init workdir, data_type := data_type }

/-- `SimpleHandler.set_data(data)`: when `self.data_type` is truthy and
its lower-cased form is a known literal type, convert the value and
store it through the base `IOHandler.set_data`; when `data_type` is
falsy or unrecognized the whole body is skipped and the handler is
returned unchanged — nothing is stored. -/
def SimpleHandler.set_data (h : SimpleHandler) (data : PyObj) :
    Except PyErr SimpleHandler :=
  match h.data_type with
  | none => Except.ok h
  | some dt =>
      if dt = "" then Except.ok h
      else if LITERAL_DATA_TYPES.contains (pyStrLower dt) then
        let conv : Except PyErr PyObj :=
          if (pyStrLower dt) = "string" then Except.ok (PyObj.str (textType data))
          else if (pyStrLower dt) = "integer" then
            (pyIntOf data).map PyObj.int
          else if (pyStrLower dt) = "float" then
            (pyFloatOf data).map PyObj.rat
          else if (pyStrLower dt) = "boolean" then
            (pyLower data).map (fun s => PyObj.bool (s == "true"))
          else Except.ok data
        match conv with
        | Except.error e => Except.error e
        | Except.ok d =>
            Except.ok { h with toIOHandler := h.toIOHandler.set_data d }
      else Except.ok h

/-- `SimpleHandler.get_data()` simply delegates to the base
`IOHandler.get_data`. -/
def SimpleHandler.get_data (h : SimpleHandler) (fs : FS) :
    Except PyErr (Option PyObj × IOHandler) :=
  h.toIOHandler.get_data fs

/- ## Further helper lemmas -/

lemma Format.encoding_eq_getD (f : Format) : f.encoding = f._encoding.getD "" := by
  unfold Format.encoding
  cases f._encoding with
  | none => rfl
  | some e =>
      by_cases he : e = ""
      · simp [he]
      · simp [he]

lemma Format.schema_eq_getD (f : Format) : f.schema = f._schema.getD "" := by
  unfold Format.schema
  cases f._schema with
  | none => rfl
  | some s =>
      by_cases hs : s = ""
      · simp [hs]
      · simp [hs]

/- ## Claim theorems -/

/-- C6: `Format.same_as` is reflexive and symmetric; differing
`mime_type` forces `false` regardless of the other fields; and the
comparison holds exactly when `mime_type` and the `''`-normalized
encoding and schema (absent treated as the empty string) are pairwise
equal. -/
theorem C6_same_as_equivalence :
    (∀ f : Format, f.same_as f = true) ∧
    (∀ a b : Format, a.same_as b = b.same_as a) ∧
    (∀ a b : Format, a.mime_type ≠ b.mime_type → a.same_as b = false) ∧
    (∀ a b : Format, a.same_as b = true ↔
      (b.mime_type = a.mime_type ∧
       b._encoding.getD "" = a._encoding.getD "" ∧
       b._schema.getD "" = a._schema.getD "")) := by
  refine ⟨Format.same_as_refl, Format.same_as_comm, ?_, ?_⟩
  · intro a b hne
    have hm : (b.mime_type == a.mime_type) = false := by
      rw [beq_eq_false_iff_ne]
      intro hba
      exact hne hba.symm
    simp [Format.same_as, hm]
  · intro a b
    simp [Format.same_as, Bool.and_eq_true, beq_iff_eq,
      Format.encoding_eq_getD, Format.schema_eq_getD, and_assoc]

/-- C6 witness: two concrete formats with different mime types are not
the same. -/
theorem C6_same_as_equivalence_witness :
    (Format.init "text/xml" none none none none).same_as
      (Format.init "application/json" none none none none) = false :=
  C6_same_as_equivalence.2.2.1
    (Format.init "text/xml" none none none none)
    (Format.init "application/json" none none none none)
    (by decide)

/-- C3: with a supported-formats list `S`, the `data_format` setter
succeeds exactly when the requested format is `same_as` some member of
`S`, in which case it stores the requested instance itself; otherwise it
raises InvalidParameterValue carrying the requested mime type, encoding
and schema, producing no new state (the prior active format stands). -/
theorem C3_set_active_format (bc : BasicComplex) (S : List Format)
    (r : Format) (hS : bc.supported_formats = some S) :
    (bc.set_data_format r = Except.ok { bc with _data_format := some r } ↔
      ∃ f ∈ S, r.same_as f = true) ∧
    ((¬ ∃ f ∈ S, r.same_as f = true) →
      bc.set_data_format r =
        Except.error (PyErr.invalidParameterValue r.mime_type r.encoding
          r.schema)) := by
  have hany : (S.any (fun frmt => frmt.same_as r) = true) ↔
      ∃ f ∈ S, r.same_as f = true := by
    rw [List.any_eq_true]
    constructor
    · rintro ⟨f, hf, hsa⟩
      exact ⟨f, hf, by rw [Format.same_as_comm]; exact hsa⟩
    · rintro ⟨f, hf, hsa⟩
      exact ⟨f, hf, by rw [Format.same_as_comm]; exact hsa⟩
  cases hb : S.any (fun frmt => frmt.same_as r) with
  | true =>
      have hex := hany.mp hb
      refine ⟨?_, fun hne => absurd hex hne⟩
      simp [BasicComplex.set_data_format, BasicComplex.is_supported, hS, hb,
        hex]
  | false =>
      have hnex : ¬ ∃ f ∈ S, r.same_as f = true := by
        intro hex
        have := hany.mpr hex
        rw [hb] at this
        exact Bool.false_ne_true this
      constructor
      · constructor
        · intro hok
          exfalso
          simp [BasicComplex.set_data_format, BasicComplex.is_supported, hS,
            hb] at hok
        · intro hex
          exact absurd hex hnex
      · intro _
        simp [BasicComplex.set_data_format, BasicComplex.is_supported, hS, hb]

/-- C3 witness: against supported formats `[json, xml]`, setting a
caller instance that matches `xml` by `same_as` but carries its own
validator tag stores exactly that instance; a geotiff request is
rejected with InvalidParameterValue. -/
theorem C3_set_active_format_witness :
    (BasicComplex.set_data_format
        { _data_format := some (Format.init "application/json" none none none none),
          supported_formats := some [Format.init "application/json" none none none none,
                                     Format.init "text/xml" none none none none] }
        (Format.init "text/xml" none none (some 7) none) =
      Except.ok
        { _data_format := some (Format.init "text/xml" none none (some 7) none),
          supported_formats := some [Format.init "application/json" none none none none,
                                     Format.init "text/xml" none none none none] }) ∧
    (BasicComplex.set_data_format
        { _data_format := some (Format.init "application/json" none none none none),
          supported_formats := some [Format.init "application/json" none none none none,
                                     Format.init "text/xml" none none none none] }
        (Format.init "image/tiff" none none none none) =
      Except.error (PyErr.invalidParameterValue "image/tiff" "" "")) := by
  constructor
  · exact (C3_set_active_format _ _ _ rfl).1.mpr
      ⟨Format.init "text/xml" none none none none, by decide, by decide⟩
  · exact (C3_set_active_format
      { _data_format := some (Format.init "application/json" none none none none),
        supported_formats := some [Format.init "application/json" none none none none,
                                   Format.init "text/xml" none none none none] }
      [Format.init "application/json" none none none none,
       Format.init "text/xml" none none none none]
      (Format.init "image/tiff" none none none none) rfl).2 (by decide)

/-- C4: constructing `BasicComplex` with a non-empty supported-formats
list and no explicit format succeeds and sets the active format to the
first entry (which is `same_as` itself by reflexivity); when an explicit
format argument is also given and construction succeeds, the stored
active format is that explicit argument. -/
theorem C4_constructor_default_format (f : Format) (rest : List Format) :
    (BasicComplex.init none (some (f :: rest)) =
        Except.ok { _data_format := some f,
                    supported_formats := some (f :: rest) } ∧
      f.same_as f = true) ∧
    (∀ (df : Format) (bc' : BasicComplex),
      BasicComplex.init (some df) (some (f :: rest)) = Except.ok bc' →
        bc'._data_format = some df) := by
  have hstep1 :
      BasicComplex.set_data_format
        { _data_format := none, supported_formats := some (f :: rest) } f =
      Except.ok { _data_format := some f,
                  supported_formats := some (f :: rest) } := by
    simp [BasicComplex.set_data_format, BasicComplex.is_supported,
      Format.same_as_refl]
  constructor
  · constructor
    · simp [BasicComplex.init, hstep1]
    · exact Format.same_as_refl f
  · intro df bc' h
    rw [BasicComplex.init] at h
    simp only [hstep1] at h
    rw [BasicComplex.set_data_format] at h
    cases hb : BasicComplex.is_supported
        { _data_format := some f, supported_formats := some (f :: rest) } df with
    | error e => rw [hb] at h; exact absurd h (by simp)
    | ok b =>
        cases b with
        | true =>
            rw [hb] at h
            simp only [Except.ok.injEq] at h
            rw [← h]
        | false => rw [hb] at h; exact absurd h (by simp)

/-- C4 witness: with supported formats `[A, B]` and no explicit format,
the active format is `A`; with explicit format `B`, it is `B`. -/
theorem C4_constructor_default_format_witness :
    (BasicComplex.init none
        (some [Format.init "application/json" none none none none,
               Format.init "text/xml" none none none none]) =
      Except.ok
        { _data_format := some (Format.init "application/json" none none none none),
          supported_formats := some [Format.init "application/json" none none none none,
                                     Format.init "text/xml" none none none none] }) ∧
    (BasicComplex.init (some (Format.init "text/xml" none none none none))
        (some [Format.init "application/json" none none none none,
               Format.init "text/xml" none none none none])).map
        (fun bc => bc._data_format) =
      Except.ok (some (Format.init "text/xml" none none none none)) := by
  constructor
  · exact (C4_constructor_default_format
      (Format.init "application/json" none none none none)
      [Format.init "text/xml" none none none none]).1.1
  · have hval : BasicComplex.init
        (some (Format.init "text/xml" none none none none))
        (some [Format.init "application/json" none none none none,
               Format.init "text/xml" none none none none]) =
      Except.ok
        { _data_format := some (Format.init "text/xml" none none none none),
          supported_formats := some [Format.init "application/json" none none none none,
                                     Format.init "text/xml" none none none none] } := by
      rfl
    have h2 := (C4_constructor_default_format
      (Format.init "application/json" none none none none)
      [Format.init "text/xml" none none none none]).2
      (Format.init "text/xml" none none none none) _ hval
    rw [hval]
    exact congrArg Except.ok h2

/-- C1: evaluation of the code at the failing input.  With `data_type`
unset (`None`) — and likewise with an unrecognized `data_type` —
`SimpleHandler.set_data` returns the handler unchanged: the whole body
sits under the `data_type` checks, so the base `IOHandler.set_data`
call is skipped and the value is dropped rather than stored; a
subsequent `get_data` returns `None`.  The base `IOHandler.set_data`,
by contrast, does store the value. -/
theorem C1_unset_or_unrecognized_type_drops_value :
    (SimpleHandler.set_data (SimpleHandler.init none none)
        (PyObj.str "x") = Except.ok (SimpleHandler.init none none) ∧
      SimpleHandler.get_data (SimpleHandler.init none none)
        { files := [], nextTemp := 0 } =
        Except.ok (none, (SimpleHandler.init none none).toIOHandler)) ∧
    SimpleHandler.set_data (SimpleHandler.init none (some "complex"))
        (PyObj.str "x") =
      Except.ok (SimpleHandler.init none (some "complex")) ∧
    ((IOHandler.init none).set_data (PyObj.str "x")).source =
      some (PyObj.str "x") := by
  exact ⟨⟨rfl, rfl⟩, rfl, rfl⟩

/-- C2 counterexample: on a fresh handler, `set_memory_object` does not
fail at all — it silently flips `source_type` to MEMORY (the claim says
it always fails with NotImplemented and never changes state). -/
theorem C2_set_memory_object_changes_state :
    (IOHandler.init none).source_type = none ∧
    ((IOHandler.init none).set_memory_object (PyObj.int 0)).source_type =
      some SOURCE_TYPE.MEMORY := by
  exact ⟨rfl, rfl⟩

/-- C2 amended: `get_memory_object` always fails with the
NotImplemented error; `set_memory_object` never fails — it sets
`source_type` to MEMORY, discards its argument, and leaves every other
field (including `source`) unchanged. -/
theorem C2_amended_memory_object_behavior (h : IOHandler) (x : PyObj) :
    h.get_memory_object = Except.error PyErr.notImplemented ∧
    h.set_memory_object x = { h with source_type := some SOURCE_TYPE.MEMORY } := by
  exact ⟨rfl, rfl⟩

/-- C7: with declared type boolean, `set_data` on any text never
raises; it stores `true` exactly when the text lower-cases to the
literal `true` (so every other text, `banana` included, becomes
`false`), and `get_data` then returns that boolean. -/
theorem C7_boolean_conversion (h : SimpleHandler) (t : String)
    (hdt : h.data_type = some "boolean") :
    h.set_data (PyObj.str t) =
      Except.ok { h with toIOHandler :=
        h.toIOHandler.set_data (PyObj.bool (pyStrLower t == "true")) } ∧
    (∀ fs : FS,
      SimpleHandler.get_data
        { h with toIOHandler :=
            h.toIOHandler.set_data (PyObj.bool (pyStrLower t == "true")) } fs =
        Except.ok (some (PyObj.bool (pyStrLower t == "true")),
          h.toIOHandler.set_data (PyObj.bool (pyStrLower t == "true")))) := by
  obtain ⟨io, dt⟩ := h
  replace hdt : dt = some "boolean" := hdt
  subst hdt
  exact ⟨rfl, fun fs => rfl⟩

/-- C7 witness: `set_data("TRUE")` stores `true`; `set_data("banana")`
stores `false`. -/
theorem C7_boolean_conversion_witness :
    SimpleHandler.set_data (SimpleHandler.init none (some "boolean"))
        (PyObj.str "TRUE") =
      Except.ok { SimpleHandler.init none (some "boolean") with
        toIOHandler := (IOHandler.init none).set_data (PyObj.bool true) } ∧
    SimpleHandler.set_data (SimpleHandler.init none (some "boolean"))
        (PyObj.str "banana") =
      Except.ok { SimpleHandler.init none (some "boolean") with
        toIOHandler := (IOHandler.init none).set_data (PyObj.bool false) } := by
  constructor
  · exact (C7_boolean_conversion (SimpleHandler.init none (some "boolean"))
      "TRUE" rfl).1
  · exact (C7_boolean_conversion (SimpleHandler.init none (some "boolean"))
      "banana" rfl).1

/-- C8: with declared type integer (resp. float), `set_data` on text
raises the ValueConversion error exactly when the text does not parse
as that numeric type, and stores the parsed number when it does. -/
theorem C8_numeric_conversion (h : SimpleHandler) (t : String) :
    (h.data_type = some "integer" →
      h.set_data (PyObj.str t) =
        match parseInt t with
        | some n =>
            Except.ok { h with toIOHandler :=
              h.toIOHandler.set_data (PyObj.int n) }
        | none => Except.error PyErr.valueConversion) ∧
    (h.data_type = some "float" →
      h.set_data (PyObj.str t) =
        match parseFloat t with
        | some q =>
            Except.ok { h with toIOHandler :=
              h.toIOHandler.set_data (PyObj.rat q) }
        | none => Except.error PyErr.valueConversion) := by
  obtain ⟨io, dt⟩ := h
  constructor
  · intro hdt
    replace hdt : dt = some "integer" := hdt
    subst hdt
    cases hp : parseInt t with
    | none =>
        simp only [SimpleHandler.set_data, pyIntOf, hp]
        rfl
    | some n =>
        simp only [SimpleHandler.set_data, pyIntOf, hp]
        rfl
  · intro hdt
    replace hdt : dt = some "float" := hdt
    subst hdt
    cases hp : parseFloat t with
    | none =>
        simp only [SimpleHandler.set_data, pyFloatOf, hp]
        rfl
    | some q =>
        simp only [SimpleHandler.set_data, pyFloatOf, hp]
        rfl

/-- C8 witness: `42` parses and is stored as the integer 42; `abc`
raises ValueConversion for both integer and float declared types;
`2.5` parses and is stored as the float 5/2. -/
theorem C8_numeric_conversion_witness :
    SimpleHandler.set_data (SimpleHandler.init none (some "integer"))
        (PyObj.str "42") =
      Except.ok { SimpleHandler.init none (some "integer") with
        toIOHandler := (IOHandler.init none).set_data (PyObj.int 42) } ∧
    SimpleHandler.set_data (SimpleHandler.init none (some "integer"))
        (PyObj.str "abc") = Except.error PyErr.valueConversion ∧
    SimpleHandler.set_data (SimpleHandler.init none (some "float"))
        (PyObj.str "abc") = Except.error PyErr.valueConversion ∧
    SimpleHandler.set_data (SimpleHandler.init none (some "float"))
        (PyObj.str "2.5") =
      Except.ok { SimpleHandler.init none (some "float") with
        toIOHandler := (IOHandler.init none).set_data
          (PyObj.rat ((5 : Rat) / 2)) } := by
  refine ⟨?_, ?_, ?_, ?_⟩
  · have h := (C8_numeric_conversion (SimpleHandler.init none (some "integer"))
      "42").1 rfl
    rw [h]
    rfl
  · have h := (C8_numeric_conversion (SimpleHandler.init none (some "integer"))
      "abc").1 rfl
    rw [h]
    rfl
  · have h := (C8_numeric_conversion (SimpleHandler.init none (some "float"))
      "abc").2 rfl
    rw [h]
    rfl
  · have h := (C8_numeric_conversion (SimpleHandler.init none (some "float"))
      "2.5").2 rfl
    have hpf0 : parseFloat "2.5" =
        some ((((2 : Nat) : Rat) + ((5 : Nat) : Rat) / (10 : Rat) ^ (1 : Nat)) *
          (10 : Rat) ^ (0 : Int)) := rfl
    have hval : (((2 : Nat) : Rat) + ((5 : Nat) : Rat) / (10 : Rat) ^ (1 : Nat)) *
        (10 : Rat) ^ (0 : Int) = (5 : Rat) / 2 := by
      push_cast
      norm_num
    rw [h, hpf0, hval]
    rfl

/-- C9: on a handler with no source set (`source_type` is `None`),
`get_data`, `get_stream` and `get_file` all fall through their branch
chains and return `None` without raising and without changing any
state. -/
theorem C9_unset_source_reads_return_none (h : IOHandler) (fs : FS)
    (hs : h.source_type = none) :
    h.get_data fs = Except.ok (none, h) ∧
    h.get_stream = Except.ok none ∧
    h.get_file fs = (Except.ok (none, h), fs) := by
  refine ⟨?_, ?_, ?_⟩
  · simp [IOHandler.get_data, hs]
  · simp [IOHandler.get_stream, hs]
  · simp [IOHandler.get_file, hs]

/-- C9 witness: a freshly constructed handler returns `None` from all
three getters. -/
theorem C9_unset_source_reads_return_none_witness :
    (IOHandler.init none).get_data { files := [], nextTemp := 0 } =
      Except.ok (none, IOHandler.init none) ∧
    (IOHandler.init none).get_stream = Except.ok none ∧
    (IOHandler.init none).get_file { files := [], nextTemp := 0 } =
      (Except.ok (none, IOHandler.init none), { files := [], nextTemp := 0 }) :=
  C9_unset_source_reads_return_none (IOHandler.init none)
    { files := [], nextTemp := 0 } rfl

/-- C10: none of `set_data`, `set_stream`, `set_file` touches the
`_tempfile` cache; consequently, once a temp file has been materialized
and cached, `set_data` or `set_stream` followed by `get_file` returns
the previously cached path and leaves the filesystem (and hence the old
file's contents) untouched — no file is materialized from the new
source. -/
theorem C10_setters_preserve_tempfile_cache (h : IOHandler) (fs : FS)
    (p : String) (v s : PyObj) (f2 : String)
    (hc : h.tempfile = some p) (hp : p ≠ "") :
    ((h.set_data v).tempfile = some p ∧
     (h.set_stream s).tempfile = some p ∧
     (h.set_file f2).tempfile = some p) ∧
    (h.set_data v).get_file fs =
      (Except.ok (some (PyObj.str p), h.set_data v), fs) ∧
    (h.set_stream s).get_file fs =
      (Except.ok (some (PyObj.str p), h.set_stream s), fs) := by
  refine ⟨⟨?_, ?_, ?_⟩, ?_, ?_⟩
  · simpa [IOHandler.set_data] using hc
  · simpa [IOHandler.set_stream] using hc
  · simpa [IOHandler.set_file] using hc
  · simp [IOHandler.get_file, IOHandler.set_data, hc, hp]
  · simp [IOHandler.get_file, IOHandler.set_stream, hc, hp]

/-- C10 witness: with path `/tmp/tmp0` cached and holding `old`,
`set_data` of a new value followed by `get_file` still returns
`/tmp/tmp0` and the filesystem still maps it to `old`. -/
theorem C10_setters_preserve_tempfile_cache_witness :
    (IOHandler.set_data
        { source_type := some SOURCE_TYPE.DATA,
          source := some (PyObj.str "old"),
          tempfile := some "/tmp/tmp0", workdir := none }
        (PyObj.str "new")).get_file
      { files := [("/tmp/tmp0", "old")], nextTemp := 1 } =
      (Except.ok (some (PyObj.str "/tmp/tmp0"),
        IOHandler.set_data
          { source_type := some SOURCE_TYPE.DATA,
            source := some (PyObj.str "old"),
            tempfile := some "/tmp/tmp0", workdir := none }
          (PyObj.str "new")),
       { files := [("/tmp/tmp0", "old")], nextTemp := 1 }) :=
  (C10_setters_preserve_tempfile_cache
    { source_type := some SOURCE_TYPE.DATA,
      source := some (PyObj.str "old"),
      tempfile := some "/tmp/tmp0", workdir := none }
    { files := [("/tmp/tmp0", "old")], nextTemp := 1 }
    "/tmp/tmp0" (PyObj.str "new") (PyObj.str "new") "x" rfl
    (by decide)).2.1

/-- C5 counterexample: a handler whose single set call stored the
non-text VALUE `5` does not materialize a file holding the text form of
the source on its first `get_file` — the write of the raw value raises
a TypeError (leaving only the empty temp file `mkstemp` had already
created), so no path is returned and no file holds the text `5`. -/
theorem C5_get_file_on_nontext_value_raises :
    ((IOHandler.init none).set_data (PyObj.int 5)).get_file
        { files := [], nextTemp := 0 } =
      (Except.error PyErr.typeError,
       { files := [("/tmp/tmp0", "")], nextTemp := 1 }) := by
  rfl

/-- C5 amended: restricted to handlers whose source is a STREAM, or a
VALUE holding text.  First part: first `get_file` on a stream source
with an empty cache materializes exactly one new file (at the fresh
`mkstemp` path, assumed unused, as `mkstemp` guarantees) whose contents
are the stream's text, caches the path, and consumes the stream.
Second part: the same for a text VALUE source, whose text form is the
value itself.  Third part: whenever the cache holds a (non-empty) path,
`get_file` on a STREAM- or DATA-kind handler returns exactly that path
and changes neither the handler nor the filesystem — the cache, once
set, is never rewritten. -/
theorem C5_amended_get_file_memoization :
    (∀ (h : IOHandler) (fs : FS) (c : String),
      h.source_type = some SOURCE_TYPE.STREAM →
      h.source = some (PyObj.stream c) →
      h.tempfile = none →
      tempPath h.workdir fs.nextTemp ∉ fs.files.map Prod.fst →
      h.get_file fs =
        (Except.ok (some (PyObj.str (tempPath h.workdir fs.nextTemp)),
           { h with source := some (PyObj.stream ""),
                    tempfile := some (tempPath h.workdir fs.nextTemp) }),
         { files := (tempPath h.workdir fs.nextTemp, c) :: fs.files,
           nextTemp := fs.nextTemp + 1 })) ∧
    (∀ (h : IOHandler) (fs : FS) (s : String),
      h.source_type = some SOURCE_TYPE.DATA →
      h.source = some (PyObj.str s) →
      h.tempfile = none →
      tempPath h.workdir fs.nextTemp ∉ fs.files.map Prod.fst →
      h.get_file fs =
        (Except.ok (some (PyObj.str (tempPath h.workdir fs.nextTemp)),
           { h with tempfile := some (tempPath h.workdir fs.nextTemp) }),
         { files := (tempPath h.workdir fs.nextTemp, s) :: fs.files,
           nextTemp := fs.nextTemp + 1 })) ∧
    (∀ (h : IOHandler) (fs : FS) (t : String),
      (h.source_type = some SOURCE_TYPE.STREAM ∨
       h.source_type = some SOURCE_TYPE.DATA) →
      h.tempfile = some t → t ≠ "" →
      h.get_file fs = (Except.ok (some (PyObj.str t), h), fs)) := by
  refine ⟨?_, ?_, ?_⟩
  · intro h fs c hs hsrc htf _
    simp [IOHandler.get_file, IOHandler.materialize_file, mkstemp, FS.write,
      hs, hsrc, htf]
  · intro h fs s hs hsrc htf _
    simp [IOHandler.get_file, IOHandler.materialize_file, mkstemp, FS.write,
      hs, hsrc, htf]
  · intro h fs t hs hc ht
    rcases hs with hs | hs <;>
      simp [IOHandler.get_file, hs, hc, ht]

/-- C5 witness: end-to-end run — a handler fed the stream `hello`
materializes `/tmp/tmp0` containing `hello` on the first `get_file`,
and the second `get_file` returns the identical path with no change to
handler or filesystem. -/
theorem C5_amended_get_file_memoization_witness :
    ((IOHandler.init none).set_stream (PyObj.stream "hello")).get_file
        { files := [], nextTemp := 0 } =
      (Except.ok (some (PyObj.str "/tmp/tmp0"),
         { source_type := some SOURCE_TYPE.STREAM,
           source := some (PyObj.stream ""),
           tempfile := some "/tmp/tmp0", workdir := none }),
       { files := [("/tmp/tmp0", "hello")], nextTemp := 1 }) ∧
    IOHandler.get_file
        { source_type := some SOURCE_TYPE.STREAM,
          source := some (PyObj.stream ""),
          tempfile := some "/tmp/tmp0", workdir := none }
        { files := [("/tmp/tmp0", "hello")], nextTemp := 1 } =
      (Except.ok (some (PyObj.str "/tmp/tmp0"),
         { source_type := some SOURCE_TYPE.STREAM,
           source := some (PyObj.stream ""),
           tempfile := some "/tmp/tmp0", workdir := none }),
       { files := [("/tmp/tmp0", "hello")], nextTemp := 1 }) := by
  constructor
  · exact C5_amended_get_file_memoization.1
      ((IOHandler.init none).set_stream (PyObj.stream "hello"))
      { files := [], nextTemp := 0 } "hello" rfl rfl rfl (by simp)
  · exact C5_amended_get_file_memoization.2.2
      { source_type := some SOURCE_TYPE.STREAM,
        source := some (PyObj.stream ""),
        tempfile := some "/tmp/tmp0", workdir := none }
      { files := [("/tmp/tmp0", "hello")], nextTemp := 1 }
      "/tmp/tmp0" (Or.inl rfl) rfl (by decide)
